import Mathlib

/-
Shallow embedding of the `main_logic` package: the window locator
(`window_finder.py`), the two capture backends (`capture_mss.py`,
`capture_win32.py`), the capture runner (`capture_runner.py`) and the
debounced hotkey capture cycle (`hotkey_capture.py`).

Modelling conventions:
  - Python ints are `Int`/`Nat`; Python strings are `String`.
  - Time is measured in integer milliseconds; the debounce threshold
    `0.08` seconds of `hotkey_capture.py` line 79 becomes 80 ms.
  - A fallible operation returns `Option`/`Except`; an external effect
    (the actual `PrintWindow` call, the grab of a frame) is a parameter
    of the embedded function, so that the surrounding control flow is
    exactly the source's.
  - A captured frame is represented by its shape `(height, width)`; the
    pixel contents play no role in any of the verified properties.
-/

namespace MainLogic

/-! ### Python string helpers

`_match_title` (window_finder.py line 73) evaluates
`needle.lower() in title.lower()`.  The titles involved are ASCII, so
`str.lower` is per-character lowercasing and `in` is contiguous
substring containment, embedded here over `List Char`. -/

/-- Per-character lowercasing of a Python string (`str.lower` on ASCII). -/
def lower_chars (s : String) : List Char :=
  s.toList.map Char.toLower

/-- Does the second list start with the first?  Helper for Python `in`. -/
def chars_start_with : List Char → List Char → Bool
  | [], _ => true
  | _ :: _, [] => false
  | a :: as, b :: bs => a == b && chars_start_with as bs

/-- Contiguous-substring containment, Python's `needle in haystack`. -/
def chars_contain (needle : List Char) : List Char → Bool
  | [] => chars_start_with needle []
  | b :: bs => chars_start_with needle (b :: bs) || chars_contain needle bs

/-! ### window_finder.py -/

/-- A top-level OS window as seen through the Win32 calls that
`find_window` issues per handle: its title (`GetWindowText`), pid,
visibility (`IsWindowVisible`), minimized flag (`IsIconic`) and the
outcome of `_get_client_rect_screen` — `none` when reading the client
geometry raises, `some (left, top, width, height)` otherwise. -/
structure PyWindow where
  hwnd : Int
  title : String
  pid : Int
  is_visible : Bool
  is_minimized : Bool
  client_rect : Option (Int × Int × Int × Int)
deriving DecidableEq

/-- Embeds the `WindowInfo` dataclass of window_finder.py lines 24-31. -/
structure WindowInfo where
  hwnd : Int
  title : String
  pid : Int
  is_visible : Bool
  is_minimized : Bool
  client_bbox : Int × Int × Int × Int
deriving DecidableEq

/-- Embeds `_match_title` (window_finder.py lines 73-78):
`needle.lower() in title.lower()`. -/
def match_title (needle : String) (w : PyWindow) : Bool :=
  chars_contain (lower_chars needle) (lower_chars w.title)

/-- The per-window filter of window_finder.py line 92:
`_is_visible(h) and not _is_minimized(h)`. -/
def py_usable (w : PyWindow) : Bool :=
  w.is_visible && !w.is_minimized

/-- Builds the returned `WindowInfo` from the selected handle
(window_finder.py lines 95-110): the title falls back to the needle when
`GetWindowText` is empty, and an unreadable client rectangle becomes the
all-zero bounding box (lines 98-101). -/
def mk_window_info (title_contains : String) (w : PyWindow) : WindowInfo :=
  { hwnd := w.hwnd
    title := if w.title = "" then title_contains else w.title
    pid := w.pid
    is_visible := w.is_visible
    is_minimized := w.is_minimized
    client_bbox := w.client_rect.getD (0, 0, 0, 0) }

/-- Embeds `find_window` (window_finder.py lines 80-110).  The
enumeration order of `EnumWindows` is the order of the `windows` list. -/
def find_window (windows : List PyWindow) (title_contains : String) :
    Option WindowInfo :=
  match windows.filter (match_title title_contains) with
  | [] => none
  | m :: rest =>
      let usable := (m :: rest).filter py_usable
      some (mk_window_info title_contains (usable.headD m))

/-- Embeds `get_capture_bbox` (window_finder.py lines 128-135); the
`RuntimeError` becomes an `Except.error`. -/
def get_capture_bbox (info : WindowInfo) :
    Except String (Int × Int × Int × Int) :=
  match info.client_bbox with
  | (l, t, w, h) =>
      if w ≤ 0 ∨ h ≤ 0 then
        Except.error "Invalid client bbox; is the window minimized or unavailable?"
      else
        Except.ok (l, t, w, h)

/-! ### hotkey_capture.py -/

/-- Embeds `KeypressCapture._get_cycle_position` (hotkey_capture.py
lines 84-96): under the lock, `alt` resets the position to 1; any other
key increments it, wrapping to 2 when the incremented value exceeds 4. -/
def get_cycle_position (keyname : String) (cycle_position : Nat) : Nat :=
  if keyname = "alt" then 1
  else
    let p := cycle_position + 1
    if p > 4 then 2 else p

/-- The position after `n` bare `advance` (`q`) events starting from the
uninitialized position 0, with no intervening `alt`. -/
def bare_advance : Nat → Nat
  | 0 => 0
  | n + 1 => get_cycle_position "q" (bare_advance n)

/-- The `_crop_coords` table of hotkey_capture.py lines 71-75. -/
def crop_coords : Nat → Option (Nat × Nat)
  | 1 => some (39, 943)
  | 2 => some (97, 943)
  | 3 => some (155, 943)
  | _ => none

/-- `_crop_size` of hotkey_capture.py line 76. -/
def crop_size : Nat := 26

/-- Embeds `KeypressCapture._crop_frame` (hotkey_capture.py lines
116-131) on the frame's shape `(height, width)`: `none` when the
position has no crop coordinates or the crop exceeds the frame bounds,
otherwise the shape of the 26 × 26 crop. -/
def crop_frame (frame_h frame_w : Nat) (cycle_pos : Nat) :
    Option (Nat × Nat) :=
  match crop_coords cycle_pos with
  | none => none
  | some (x, y) =>
      if frame_h < y + crop_size ∨ frame_w < x + crop_size then none
      else some (crop_size, crop_size)

/-- Python's `"%04d" % n` / `f"{n:04d}"`: the decimal digits of `n`
left-padded with zeros to at least four characters. -/
def fmt04 (n : Nat) : String :=
  String.mk (List.replicate (4 - (toString n).length) '0') ++ toString n

/-- The filename built by `KeypressCapture._save_frame`
(hotkey_capture.py line 140). -/
def save_fname (cycle_pos : Nat) (keyname : String) (ts : Int)
    (total_idx : Nat) : String :=
  toString cycle_pos ++ "_" ++ keyname ++ "_" ++ toString ts ++ "_" ++
    fmt04 total_idx ++ ".png"

/-- One delivered key event: the logical key name produced by
`on_press`, the `perf_counter` reading at line 146 (ms), the `_now_ms`
wall-clock reading used by `_save_frame` (ms), and the outcome of
`_safe_grab` — `none` on capture failure, `some (height, width)` on
success. -/
structure KeyEvent where
  keyname : String
  now : Int
  ts_ms : Int
  grab : Option (Nat × Nat)
deriving DecidableEq

/-- The mutable state of a `KeypressCapture` instance: the `_last_ts`
debounce map, `_cycle_position`, `_total_screenshots`, and the list of
saved artifacts as `(cycle_pos, keyname, ts_ms, total_idx)` in save
order. -/
structure KCState where
  last_ts : List (String × Int)
  cycle_position : Nat
  total_screenshots : Nat
  saved : List (Nat × String × Int × Nat)
deriving DecidableEq

/-- Lookup in the `_last_ts` map, with Python's
`self._last_ts.get(keyname, 0.0)` default. -/
def ts_get (m : List (String × Int)) (k : String) : Int :=
  (m.lookup k).getD 0

/-- Assignment `self._last_ts[keyname] = now`: later entries shadow
earlier ones under `ts_get`. -/
def ts_set (m : List (String × Int)) (k : String) (v : Int) :
    List (String × Int) :=
  (k, v) :: m

/-- `self._debounce_s = 0.08` (hotkey_capture.py line 79), in ms. -/
def debounce_ms : Int := 80

/-- The state right after `KeypressCapture.__init__`
(hotkey_capture.py lines 62-79). -/
def init_state : KCState :=
  { last_ts := [("alt", 0), ("q", 0), ("e", 0)]
    cycle_position := 0
    total_screenshots := 0
    saved := [] }

/-- The tail of `KeypressCapture._handle_keypress` from line 158 on,
after the cycle position `pos` has been taken: return unchanged at
position 4 (no save), return unchanged when the grab or the crop fails,
and otherwise perform `_save_frame` — increment `_total_screenshots`
under the lock and record the artifact. -/
def capture_and_save (s2 : KCState) (keyname : String) (ts_ms : Int)
    (grab : Option (Nat × Nat)) (pos : Nat) : KCState :=
  if pos = 4 then s2
  else
    match grab with
    | none => s2
    | some (fh, fw) =>
        match crop_frame fh fw pos with
        | none => s2
        | some _ =>
            { s2 with
              total_screenshots := s2.total_screenshots + 1
              saved := s2.saved ++
                [(pos, keyname, ts_ms, s2.total_screenshots + 1)] }

/-- Embeds `KeypressCapture._handle_keypress` (hotkey_capture.py lines
145-177): debounce check against the per-key timestamp, timestamp
update, cycle-position update, then `capture_and_save`.  The optional
`post_press_delay` sleep has no state effect and is omitted. -/
def handle_keypress (s : KCState) (e : KeyEvent) : KCState :=
  if e.now - ts_get s.last_ts e.keyname < debounce_ms then s
  else
    capture_and_save
      { s with
        last_ts := ts_set s.last_ts e.keyname e.now
        cycle_position := get_cycle_position e.keyname s.cycle_position }
      e.keyname e.ts_ms e.grab
      (get_cycle_position e.keyname s.cycle_position)

/-- Serial delivery of a sequence of key events (the pynput listener
thread delivers one event at a time). -/
def run_events (s : KCState) (es : List KeyEvent) : KCState :=
  es.foldl handle_keypress s

/-! ### capture_win32.py -/

/-- The retry loop of `Win32ClientCapture.grab` (capture_win32.py lines
57-61) over a list of `PrintWindow` flags: returns the flags actually
passed to `PrintWindow`, in call order, and whether some call returned
1.  `pw f` is the success of the external `PrintWindow` call with
flag `f`. -/
def try_print_window (pw : Nat → Bool) : List Nat → List Nat × Bool
  | [] => ([], false)
  | f :: rest =>
      if pw f then ([f], true)
      else
        let r := try_print_window pw rest
        (f :: r.1, r.2)

/-- Embeds `Win32ClientCapture.grab` (capture_win32.py lines 44-78) for
a window of client size `w × h`: the zero-size guard raises before any
render attempt; otherwise the flags 3, 2, 1 are tried in order, and on
success the returned array has shape `(h, w, 3)` — the BGRA buffer of
line 66 reshaped to `(height, width, 4)` with the alpha channel
dropped. -/
def win32_grab (w h : Int) (pw : Nat → Bool) :
    Except String (Int × Int × Nat) :=
  if w ≤ 0 ∨ h ≤ 0 then Except.error "Zero-sized client area; minimized?"
  else if (try_print_window pw [3, 2, 1]).2 then Except.ok (h, w, 3)
  else Except.error "PrintWindow failed"

/-- The list of `PrintWindow` flags actually attempted by
`Win32ClientCapture.grab`: none when the zero-size guard raises first,
otherwise the prefix of `[3, 2, 1]` up to the first success. -/
def win32_render_attempts (w h : Int) (pw : Nat → Bool) : List Nat :=
  if w ≤ 0 ∨ h ≤ 0 then [] else (try_print_window pw [3, 2, 1]).1

/-! ### capture_runner.py -/

/-- The shape of a frame returned by either backend's grab:
`np.asarray(...)[..., :3]` (capture_mss.py line 33) and the reshape of
capture_win32.py line 66 both yield a `height × width × 3` array. -/
def frame_shape (h w : Nat) : List Nat := [h, w, 3]

/-- Embeds the no-save, no-preview print of `run` (capture_runner.py
lines 66 and 90): the f-string evaluates `frame.shape[11]`, so the
branch raises `IndexError` when the shape tuple is shorter, and only
otherwise prints. -/
def captured_frame_msg (shape : List Nat) : Except String String :=
  match shape.get? 11 with
  | none => Except.error "tuple index out of range"
  | some v =>
      Except.ok ("Captured frame: " ++ toString v ++ "x" ++ toString shape)

/-! ### Concrete inputs used to instantiate the verified properties -/

/-- The event sequence [Alt, Q, Q, Q], 200 ms apart (beyond the 80 ms
debounce), every grab succeeding with a 1000 × 1000 frame. -/
def c3_events : List KeyEvent :=
  [⟨"alt", 100, 100, some (1000, 1000)⟩,
   ⟨"q", 300, 300, some (1000, 1000)⟩,
   ⟨"q", 500, 500, some (1000, 1000)⟩,
   ⟨"q", 700, 700, some (1000, 1000)⟩]

/-- A Q event and an E event 10 ms apart, both grabs succeeding. -/
def q_then_e_events : List KeyEvent :=
  [⟨"q", 1000, 1000, some (1000, 1000)⟩,
   ⟨"e", 1010, 1010, some (1000, 1000)⟩]

/-- A matching window whose client geometry is unreadable. -/
def demo_failed_window : PyWindow :=
  ⟨100, "MTA: San Andreas - Server", 42, true, false, none⟩

/-- The visible, non-minimized MTA window of the spec's locator test. -/
def demo_mta_window : PyWindow :=
  ⟨2, "MTA: San Andreas - Server", 20, true, false, some (10, 20, 800, 600)⟩

/-- The window list of the spec's locator test:
titles `["Foo", "MTA: San Andreas - Server", "Bar"]`. -/
def demo_windows : List PyWindow :=
  [⟨1, "Foo", 10, true, false, some (0, 0, 800, 600)⟩,
   demo_mta_window,
   ⟨3, "Bar", 30, true, false, some (0, 0, 640, 480)⟩]

/-- A `PrintWindow` oracle that succeeds only for flag 2. -/
def pw_demo (f : Nat) : Bool := f == 2

/-! ### Helper lemmas -/

/-- Length of a character-list string prepended to another string. -/
theorem string_mk_append_length (l : List Char) (s : String) :
    (String.mk l ++ s).length = l.length + s.length := by
  rcases s with ⟨d⟩
  show (l ++ d).length = l.length + d.length
  exact List.length_append l d

/-- `capture_and_save` never touches the debounce map or the cycle
position, and never decreases the screenshot counter. -/
theorem capture_and_save_fields (s2 : KCState) (k : String) (t : Int)
    (g : Option (Nat × Nat)) (p : Nat) :
    (capture_and_save s2 k t g p).last_ts = s2.last_ts ∧
    (capture_and_save s2 k t g p).cycle_position = s2.cycle_position ∧
    s2.total_screenshots ≤ (capture_and_save s2 k t g p).total_screenshots := by
  unfold capture_and_save
  split
  · exact ⟨rfl, rfl, Nat.le_refl _⟩
  · split
    · exact ⟨rfl, rfl, Nat.le_refl _⟩
    · split
      · exact ⟨rfl, rfl, Nat.le_refl _⟩
      · exact ⟨rfl, rfl, Nat.le_succ _⟩

/-- After `n + 2` bare advances the position is `2 + n % 3`. -/
theorem bare_advance_add_two (k : Nat) : bare_advance (k + 2) = 2 + k % 3 := by
  induction k with
  | zero => decide
  | succ k ih =>
      have h3 : k % 3 = 0 ∨ k % 3 = 1 ∨ k % 3 = 2 := by omega
      show get_cycle_position "q" (bare_advance (k + 2)) = 2 + (k + 1) % 3
      rw [ih]
      rcases h3 with h | h | h
      · have h' : (k + 1) % 3 = 1 := by omega
        rw [h, h']
        decide
      · have h' : (k + 1) % 3 = 2 := by omega
        rw [h, h']
        decide
      · have h' : (k + 1) % 3 = 0 := by omega
        rw [h, h']
        decide

/-! ### Claims -/

/-- C1: the cycle tracker's transition function satisfies, for every
prior position p in {0,1,2,3,4}: on a `cycle-start` (Alt) event the new
position is 1 regardless of p; on an `advance` (Q or E) event the new
position is p+1, except that when p+1 > 4 the new position is 2. -/
theorem c1_cycle_transition (p : Nat) (hp : p ≤ 4) :
    get_cycle_position "alt" p = 1 ∧
    get_cycle_position "q" p = (if p + 1 > 4 then 2 else p + 1) ∧
    get_cycle_position "e" p = (if p + 1 > 4 then 2 else p + 1) := by
  interval_cases p <;> decide

/-- Witness for C1 at the prior position 4: Alt resets to 1 and an
advance wraps to 2. -/
theorem c1_cycle_transition_witness :
    (4 : Nat) ≤ 4 ∧
    (get_cycle_position "alt" 4 = 1 ∧
     get_cycle_position "q" 4 = (if 4 + 1 > 4 then 2 else 4 + 1) ∧
     get_cycle_position "e" 4 = (if 4 + 1 > 4 then 2 else 4 + 1)) :=
  ⟨by decide, c1_cycle_transition 4 (by decide)⟩

/-- C2 counterexample: the first bare advance from the uninitialized
position 0 yields 1, not the claimed 2 + ((1-1) mod 3) = 2. -/
theorem c2_counterexample : ¬ (bare_advance 1 = 2 + (1 - 1) % 3) := by
  decide

/-- C2 (amended): from the uninitialized position 0 with no prior
`cycle-start`, the first bare advance yields 1, and for n ≥ 2 the n-th
bare advance yields 2 + ((n-2) mod 3), i.e. the sequence is
1,2,3,4,2,3,4,2,... -/
theorem c2_bare_advance (n : Nat) :
    (n = 1 → bare_advance n = 1) ∧
    (2 ≤ n → bare_advance n = 2 + (n - 2) % 3) := by
  constructor
  · rintro rfl
    decide
  · intro h2
    obtain ⟨k, rfl⟩ : ∃ k, n = k + 2 := ⟨n - 2, by omega⟩
    simpa using bare_advance_add_two k

/-- Witness for C2 (amended) at n = 5: the fifth bare advance yields
2 + (3 mod 3) = 2. -/
theorem c2_bare_advance_witness :
    2 ≤ 5 ∧ bare_advance 5 = 2 + (5 - 2) % 3 :=
  ⟨by decide, (c2_bare_advance 5).2 (by decide)⟩

/-- C3 counterexample: on the event sequence [Alt, Q, Q, Q], spaced
beyond the debounce threshold with every capture succeeding, the saved
artifacts are NOT labeled 1,2,3,4 — position 4 is skipped by
hotkey_capture.py lines 158-161, so only three artifacts are saved. -/
theorem c3_counterexample :
    ¬ ((run_events init_state c3_events).saved.map (fun a => a.1) =
        [1, 2, 3, 4]) := by
  decide

/-- C3 (amended): the event sequence [Alt, Q, Q, Q], spaced beyond the
debounce threshold with every capture succeeding, saves exactly three
artifacts labeled with cycle positions 1, 2, 3 and strictly increasing
sequence numbers 1, 2, 3; the fourth event advances the cycle position
to 4 but saves nothing. -/
theorem c3_alt_q_q_q_run :
    (run_events init_state c3_events).saved =
      [(1, "alt", 100, 1), (2, "q", 300, 2), (3, "q", 500, 3)] ∧
    (run_events init_state c3_events).cycle_position = 4 ∧
    (run_events init_state c3_events).total_screenshots = 3 := by
  decide

/-- C4 counterexample: a Q event and an E event 10 ms apart share the
logical name `advance`, yet both are accepted and both save — the
debounce map of hotkey_capture.py line 78 is keyed by the physical key
name, not by the logical name. -/
theorem c4_counterexample :
    (1010 : Int) - 1000 < debounce_ms ∧
    (run_events init_state q_then_e_events).saved.length = 2 := by
  decide

/-- C4 (amended): debounce is applied per physical key name ("alt",
"q", "e"): an event arriving less than 80 ms after the last accepted
event of the SAME physical key is discarded with no state change and no
save; an event arriving 80 ms or more after is accepted — its
timestamp is recorded and the cycle position advances. -/
theorem c4_debounce (s : KCState) (e : KeyEvent) :
    (e.now - ts_get s.last_ts e.keyname < debounce_ms →
      handle_keypress s e = s) ∧
    (debounce_ms ≤ e.now - ts_get s.last_ts e.keyname →
      (handle_keypress s e).last_ts = ts_set s.last_ts e.keyname e.now ∧
      (handle_keypress s e).cycle_position =
        get_cycle_position e.keyname s.cycle_position) := by
  constructor
  · intro h
    unfold handle_keypress
    rw [if_pos h]
  · intro h
    unfold handle_keypress
    rw [if_neg (by omega)]
    exact ⟨(capture_and_save_fields _ _ _ _ _).1,
           (capture_and_save_fields _ _ _ _ _).2.1⟩

/-- Witness for C4 (amended): from the initial state, a Q event 30 ms
in is discarded unchanged, while a Q event 1000 ms in is accepted, its
timestamp recorded and the cycle position advanced. -/
theorem c4_debounce_witness :
    (handle_keypress init_state ⟨"q", 30, 30, none⟩ = init_state) ∧
    ((handle_keypress init_state ⟨"q", 1000, 1000, none⟩).last_ts =
       ts_set init_state.last_ts "q" 1000 ∧
     (handle_keypress init_state ⟨"q", 1000, 1000, none⟩).cycle_position =
       get_cycle_position "q" init_state.cycle_position) :=
  ⟨(c4_debounce init_state ⟨"q", 30, 30, none⟩).1 (by decide),
   (c4_debounce init_state ⟨"q", 1000, 1000, none⟩).2 (by decide)⟩

/-- C5 counterexample: an accepted Alt event from the initial state
whose capture fails leaves the cycle position updated to 1, but the
total-screenshot counter still at 0 — the counter is incremented only
inside `_save_frame` (hotkey_capture.py line 136), i.e. after a
successful capture, not before the capture attempt. -/
theorem c5_counterexample :
    (handle_keypress init_state ⟨"alt", 1000, 1000, none⟩).cycle_position = 1 ∧
    (handle_keypress init_state ⟨"alt", 1000, 1000, none⟩).total_screenshots
      = 0 := by
  decide

/-- C5 (amended): for every accepted event whose capture attempt fails,
the cycle position has already been updated before the capture attempt
and is not rolled back; the total-screenshot counter is incremented
only at save time, so it is unchanged on capture failure; no artifact
is saved, and the handler returns normally so the listener keeps
running. -/
theorem c5_capture_failure (s : KCState) (e : KeyEvent)
    (hacc : debounce_ms ≤ e.now - ts_get s.last_ts e.keyname)
    (hgrab : e.grab = none)
    (hpos : get_cycle_position e.keyname s.cycle_position ≠ 4) :
    (handle_keypress s e).cycle_position =
      get_cycle_position e.keyname s.cycle_position ∧
    (handle_keypress s e).total_screenshots = s.total_screenshots ∧
    (handle_keypress s e).saved = s.saved := by
  unfold handle_keypress
  rw [if_neg (by omega)]
  unfold capture_and_save
  rw [if_neg hpos, hgrab]
  exact ⟨rfl, rfl, rfl⟩

/-- Witness for C5 (amended): the accepted, capture-failing Alt event
from the initial state keeps counter and artifact list unchanged while
the position update stands. -/
theorem c5_capture_failure_witness :
    (handle_keypress init_state ⟨"alt", 1000, 1000, none⟩).cycle_position =
      get_cycle_position "alt" init_state.cycle_position ∧
    (handle_keypress init_state ⟨"alt", 1000, 1000, none⟩).total_screenshots =
      init_state.total_screenshots ∧
    (handle_keypress init_state ⟨"alt", 1000, 1000, none⟩).saved =
      init_state.saved :=
  c5_capture_failure init_state ⟨"alt", 1000, 1000, none⟩
    (by decide) rfl (by decide)

/-- Every `WindowInfo` returned by `find_window` is built by
`mk_window_info` from some enumerated window. -/
theorem find_window_selects (ws : List PyWindow) (needle : String)
    (info : WindowInfo) (h : find_window ws needle = some info) :
    ∃ pw, pw ∈ ws ∧ info = mk_window_info needle pw := by
  unfold find_window at h
  rcases hm : ws.filter (match_title needle) with _ | ⟨m, rest⟩
  · rw [hm] at h
    exact absurd h (by simp)
  · rw [hm] at h
    simp only [Option.some.injEq] at h
    refine ⟨((m :: rest).filter py_usable).headD m, ?_, h.symm⟩
    have hsub : ∀ x ∈ m :: rest, x ∈ ws := by
      intro x hx
      have hx' : x ∈ ws.filter (match_title needle) := hm ▸ hx
      exact (List.mem_filter.mp hx').1
    rcases hu : (m :: rest).filter py_usable with _ | ⟨u, urest⟩
    · simpa [hu] using hsub m (List.mem_cons_self m rest)
    · have hmem : u ∈ (m :: rest).filter py_usable :=
        hu ▸ List.mem_cons_self u urest
      simpa [hu] using hsub u (List.mem_filter.mp hmem).1

/-- C6: window lookup never raises on unreadable geometry — when every
enumerated window's client rectangle is unreadable, the returned
`WindowInfo` carries the all-zero bounding box; and `get_capture_bbox`
raises a capture-precondition error if and only if the box's width ≤ 0
or height ≤ 0, before any grab is attempted, otherwise returning the
box unchanged. -/
theorem c6_geometry_errors (ws : List PyWindow) (needle : String)
    (info inf2 : WindowInfo) :
    ((∀ pw ∈ ws, pw.client_rect = none) →
      find_window ws needle = some info →
      info.client_bbox = (0, 0, 0, 0)) ∧
    (inf2.client_bbox.2.2.1 ≤ 0 ∨ inf2.client_bbox.2.2.2 ≤ 0 →
      get_capture_bbox inf2 =
        Except.error
          "Invalid client bbox; is the window minimized or unavailable?") ∧
    (0 < inf2.client_bbox.2.2.1 → 0 < inf2.client_bbox.2.2.2 →
      get_capture_bbox inf2 = Except.ok inf2.client_bbox) := by
  refine ⟨?_, ?_, ?_⟩
  · intro hall hfind
    obtain ⟨pw, hmem, rfl⟩ := find_window_selects ws needle info hfind
    simp [mk_window_info, hall pw hmem]
  · intro hz
    rcases hbb : inf2.client_bbox with ⟨l, t, wd, ht⟩
    rw [hbb] at hz
    dsimp only at hz
    rcases hz with hz | hz <;> simp [get_capture_bbox, hbb, hz]
  · intro hw hh
    rcases hbb : inf2.client_bbox with ⟨l, t, wd, ht⟩
    rw [hbb] at hw hh
    dsimp only at hw hh
    have h1 : ¬ (wd ≤ 0 ∨ ht ≤ 0) := by omega
    simp [get_capture_bbox, hbb, h1]

/-- Witness for C6: a matching window with unreadable geometry yields
the all-zero box, on which `get_capture_bbox` raises. -/
theorem c6_geometry_errors_witness :
    (mk_window_info "MTA" demo_failed_window).client_bbox = (0, 0, 0, 0) ∧
    get_capture_bbox (mk_window_info "MTA" demo_failed_window) =
      Except.error
        "Invalid client bbox; is the window minimized or unavailable?" :=
  ⟨(c6_geometry_errors [demo_failed_window] "MTA"
      (mk_window_info "MTA" demo_failed_window)
      (mk_window_info "MTA" demo_failed_window)).1
        (by decide) (by decide),
   (c6_geometry_errors [demo_failed_window] "MTA"
      (mk_window_info "MTA" demo_failed_window)
      (mk_window_info "MTA" demo_failed_window)).2.1 (by decide)⟩

/-- C7: for every list of enumerated windows and every substring,
`find_window` selects, among case-insensitive title matches, the first
visible and non-minimized match in enumeration order; if no such match
exists it selects the first match regardless of visibility; and it
returns none exactly when no title matches the substring. -/
theorem c7_window_selection (ws : List PyWindow) (needle : String) :
    (find_window ws needle = none ↔ ws.filter (match_title needle) = []) ∧
    (∀ u urest,
      (ws.filter (match_title needle)).filter py_usable = u :: urest →
      find_window ws needle = some (mk_window_info needle u)) ∧
    (∀ m mrest,
      (ws.filter (match_title needle)).filter py_usable = [] →
      ws.filter (match_title needle) = m :: mrest →
      find_window ws needle = some (mk_window_info needle m)) := by
  refine ⟨?_, ?_, ?_⟩
  · unfold find_window
    rcases hm : ws.filter (match_title needle) with _ | ⟨m, rest⟩ <;> simp
  · intro u urest hu
    unfold find_window
    rcases hm : ws.filter (match_title needle) with _ | ⟨m, rest⟩
    · rw [hm] at hu
      simp at hu
    · rw [hm] at hu
      simp [hu]
  · intro m mrest hu hm
    unfold find_window
    rw [hm] at hu ⊢
    simp [hu]

/-- Witness for C7 on the spec's locator test — window titles
["Foo", "MTA: San Andreas - Server", "Bar"], substring "MTA": the
single (visible, non-minimized) match is selected. -/
theorem c7_window_selection_witness :
    find_window demo_windows "MTA" =
      some (mk_window_info "MTA" demo_mta_window) :=
  (c7_window_selection demo_windows "MTA").2.1 demo_mta_window [] (by decide)

/-- C8: every saved artifact's filename is
`{cyclePosition}_{logicalKey}_{epochMillis}_{sequence:04d}.png` with
the sequence zero-padded to 4 digits (padding to at least four
characters, `max 4` the digit count); in particular position=2,
key="q", timestamp=1700000000000, sequence=7 yields
`2_q_1700000000000_0007.png`. -/
theorem c8_filename_format :
    save_fname 2 "q" 1700000000000 7 = "2_q_1700000000000_0007.png" ∧
    ∀ i : Nat, (fmt04 i).length = max 4 (toString i).length := by
  constructor
  · decide
  · intro i
    rw [fmt04, string_mk_append_length, List.length_replicate]
    omega

/-- Witness for C8 at sequence 7: the padded field has length 4. -/
theorem c8_filename_format_witness :
    save_fname 2 "q" 1700000000000 7 = "2_q_1700000000000_0007.png" ∧
    (fmt04 7).length = max 4 (toString 7).length :=
  ⟨c8_filename_format.1, c8_filename_format.2 7⟩

/-- C9: the off-screen-render grab raises a capture error when the
window's client area has width ≤ 0 or height ≤ 0, before any render
attempt (for every `PrintWindow` oracle, no flag is attempted);
otherwise it tries the render-mode flags in decreasing order 3, 2, 1,
stopping at the first success, raises a capture error if all three
fail, and on success returns a height × width × 3 array with the alpha
channel discarded. -/
theorem c9_win32_grab (w h : Int) (pw : Nat → Bool) :
    (w ≤ 0 ∨ h ≤ 0 →
      win32_grab w h pw = Except.error "Zero-sized client area; minimized?" ∧
      win32_render_attempts w h pw = []) ∧
    (0 < w → 0 < h →
      (pw 3 = true →
        win32_grab w h pw = Except.ok (h, w, 3) ∧
        win32_render_attempts w h pw = [3]) ∧
      (pw 3 = false → pw 2 = true →
        win32_grab w h pw = Except.ok (h, w, 3) ∧
        win32_render_attempts w h pw = [3, 2]) ∧
      (pw 3 = false → pw 2 = false → pw 1 = true →
        win32_grab w h pw = Except.ok (h, w, 3) ∧
        win32_render_attempts w h pw = [3, 2, 1]) ∧
      (pw 3 = false → pw 2 = false → pw 1 = false →
        win32_grab w h pw = Except.error "PrintWindow failed" ∧
        win32_render_attempts w h pw = [3, 2, 1])) := by
  constructor
  · intro hz
    unfold win32_grab win32_render_attempts
    rw [if_pos hz, if_pos hz]
    exact ⟨rfl, rfl⟩
  · intro hw hh
    have hz : ¬ (w ≤ 0 ∨ h ≤ 0) := by omega
    refine ⟨?_, ?_, ?_, ?_⟩
    · intro h3
      simp [win32_grab, win32_render_attempts, try_print_window, hz, h3]
    · intro h3 h2
      simp [win32_grab, win32_render_attempts, try_print_window, hz, h3, h2]
    · intro h3 h2 h1
      simp [win32_grab, win32_render_attempts, try_print_window,
        hz, h3, h2, h1]
    · intro h3 h2 h1
      simp [win32_grab, win32_render_attempts, try_print_window,
        hz, h3, h2, h1]

/-- Witness for C9: an 800 × 600 client area with a `PrintWindow`
oracle succeeding only at flag 2 attempts flags 3 then 2 and returns
the 600 × 800 × 3 shape. -/
theorem c9_win32_grab_witness :
    win32_grab 800 600 pw_demo = Except.ok (600, 800, 3) ∧
    win32_render_attempts 800 600 pw_demo = [3, 2] :=
  ((c9_win32_grab 800 600 pw_demo).2 (by decide) (by decide)).2.1 rfl rfl

/-- C10: in the runner, for every backend, when no save path is given
and preview is off, the post-capture print indexes `frame.shape` at
position 11; every captured frame's shape has 3 elements, so for every
frame size the branch raises an index error after the successful grab
and never prints the frame dimensions. -/
theorem c10_runner_shape_index (fh fw : Nat) :
    captured_frame_msg (frame_shape fh fw) =
      Except.error "tuple index out of range" := rfl

end MainLogic
